import Mathlib

/-!
# Verification of the HMLR data-portal pages

A shallow embedding of the repository's five Python modules:
`lib.py` (database engine creation and the TTL query cache),
`pages/single_editor.py` (the transactional save handler),
`pages/dataframe_map.py` (`process_geometry`, the pydeck layer
construction and the refresh handler).

Python values that can appear in a pandas cell are modelled by `PyVal`;
a table row is an association list from column name to value; a
DataFrame is its column list plus its rows.  External collaborators
(SQLAlchemy transactions, the Streamlit cache decorators, geopandas
reprojection) are modelled by their documented observable behaviour:
a transaction either commits all of its statements or none, a cache
entry is served while its age is below the TTL, and reprojection
preserves the list of features.
-/

set_option autoImplicit false

namespace HmlrPortal

/-- A Python value as it can appear in a pandas cell or a parsed JSON
document: `none` is Python's `None`/`null`. -/
inductive PyVal where
  | none
  | bool (b : Bool)
  | int (n : Int)
  | str (s : String)
  | list (xs : List PyVal)
  | dict (kvs : List (String × PyVal))

/-- Python truthiness (`if row['geometry']:`): `None`, `False`, `0`,
empty strings and empty containers are falsy. -/
def truthy : PyVal → Bool
  | .none => false
  | .bool b => b
  | .int n => n != 0
  | .str s => !s.isEmpty
  | .list xs => !xs.isEmpty
  | .dict kvs => !kvs.isEmpty

/-- `isinstance(v, dict)`. -/
def PyVal.isDict : PyVal → Bool
  | .dict _ => true
  | _ => false

mutual

/-- `json.dumps`: deterministic JSON serialization of a Python value
(the stdlib collaborator; indentation and string escaping are not
reproduced, only a fixed deterministic rendering). -/
def json_dumps : PyVal → String
  | .none => "null"
  | .bool b => if b then "true" else "false"
  | .int n => toString n
  | .str s => "\"" ++ s ++ "\""
  | .list xs => "[" ++ String.intercalate ", " (json_dumps_list xs) ++ "]"
  | .dict kvs => "\x7b" ++ String.intercalate ", " (json_dumps_kvs kvs) ++ "\x7d"

/-- Serialize each element of a JSON array. -/
def json_dumps_list : List PyVal → List String
  | [] => []
  | v :: vs => json_dumps v :: json_dumps_list vs

/-- Serialize each key/value pair of a JSON object. -/
def json_dumps_kvs : List (String × PyVal) → List String
  | [] => []
  | (k, v) :: kvs => ("\"" ++ k ++ "\": " ++ json_dumps v) :: json_dumps_kvs kvs

end

/-- A table row: a mapping from column name to cell value, in column
order (`row.to_dict()` view of a pandas row). -/
abbrev Row := List (String × PyVal)

/-- A pandas DataFrame: its column labels and its rows. -/
structure DataFrame where
  cols : List String
  rows : List Row

/-- `row[c]`: look a column up in a row; `Option.none` models the
`KeyError` raised when the label is absent. -/
def getCol (r : Row) (c : String) : Option PyVal :=
  (r.find? (fun kv => kv.1 == c)).map Prod.snd

/-- Python's `d.get(k, default)` on a dict. -/
def dictGet (kvs : List (String × PyVal)) (k : String) (dflt : PyVal) : PyVal :=
  match kvs.find? (fun kv => kv.1 == k) with
  | some kv => kv.2
  | Option.none => dflt

/-- `row.drop('geometry')`: the row without its geometry column. -/
def dropGeometry (r : Row) : Row :=
  r.filter (fun kv => kv.1 != "geometry")

/-- One iteration of the `for idx, row in data.iterrows()` loop of
`process_geometry`: the features this row appends to `features` and the
copies of its non-geometry dict appended to `row_data_list`.
`Option.none` models an exception escaping the loop body (missing
`geometry` label, or `extend`/`len` applied to a non-list `features`
value). A falsy geometry cell or a truthy non-dict one is skipped and
contributes nothing. -/
def rowContribution (row : Row) : Option (List PyVal × List Row) :=
  match getCol row "geometry" with
  | Option.none => Option.none
  | some g =>
    if truthy g then
      match g with
      | .dict kvs =>
        match dictGet kvs "features" (.list []) with
        | .list fs => some (fs, List.replicate fs.length (dropGeometry row))
        | _ => Option.none
      | _ => some ([], [])
    else some ([], [])

/-- The whole extraction loop of `process_geometry`: the final
`features` and `row_data_list`, or `Option.none` when an iteration
raises. -/
def flattenRows : List Row → Option (List PyVal × List Row)
  | [] => some ([], [])
  | r :: rest =>
    match rowContribution r with
    | Option.none => Option.none
    | some (fs, rds) =>
      match flattenRows rest with
      | Option.none => Option.none
      | some (fs2, rds2) => some (fs ++ fs2, rds ++ rds2)

/-- `process_geometry(data)`: the flattened feature set, each feature
paired with its row's non-geometry data serialized by `json.dumps`, and
whether the inline "Error processing geometry" message was shown (in
which case the returned GeoDataFrame is empty).
`GeoDataFrame.from_features` and the CRS reprojection `to_crs(4326)`
are external and preserve a nonempty feature list; on an empty one
`from_features([], crs=27700)` builds a frame without a geometry
column, so assigning the CRS raises a `ValueError` that the `except`
branch catches and reports inline. -/
def process_geometry (rows : List Row) : List (PyVal × String) × Bool :=
  match flattenRows rows with
  | Option.none => ([], true)
  | some (fs, rds) =>
    if fs.isEmpty then ([], true)
    else (fs.zip (rds.map (fun rd => json_dumps (.dict rd))), false)

/-! ## The query cache (`lib.load_data`, `@st.cache_data(ttl=600)`) -/

/-- The cache TTL of `@st.cache_data(ttl=600)`, in seconds. -/
def cacheTtl : Nat := 600

/-- One memoized `load_data` result: keyed by the literal SQL text,
stamped with its creation time. -/
structure CacheEntry where
  sql : String
  createdAt : Nat
  value : DataFrame

/-- Look a SQL text up in the cache at time `now`: a hit only while the
entry's age is below the TTL. -/
def cacheLookup (cache : List CacheEntry) (now : Nat) (sql : String) :
    Option DataFrame :=
  match cache.find? (fun e => e.sql == sql) with
  | some e => if now < e.createdAt + cacheTtl then some e.value else Option.none
  | Option.none => Option.none

/-- The outcome of one `load_data(sql)` call: the returned table, the
cache afterwards, and whether the query was actually executed against
the database. -/
structure LoadResult where
  value : DataFrame
  cache : List CacheEntry
  executed : Bool

/-- `lib.load_data(sql)` under `@st.cache_data(ttl=600)`: serve a fresh
cache entry without executing; otherwise run `pd.read_sql` and memoize
the result at the current time. `runQuery` is the database. -/
def load_data (runQuery : String → DataFrame) (cache : List CacheEntry)
    (now : Nat) (sql : String) : LoadResult :=
  match cacheLookup cache now sql with
  | some v => ⟨v, cache, false⟩
  | Option.none =>
    let v := runQuery sql
    ⟨v, ⟨sql, now, v⟩ :: cache.filter (fun e => e.sql != sql), true⟩

/-- `lib.load_data.clear()`: drop every memoized result for every SQL
text. -/
def load_data_clear (_cache : List CacheEntry) : List CacheEntry := []

/-! ## Engine creation (`lib._create_database_engine`) -/

/-- The connection URL assembled by `sqlalchemy.engine.url.URL.create`. -/
structure ConnUrl where
  username : String
  password : String
  host : String
  port : Int
  database : String

/-- The outcome of `_create_database_engine`: an `EnvironmentError`
naming the missing variable, a `ConnectionError`, or an engine holding
the assembled URL. -/
inductive EngineResult where
  | envError (varName : String)
  | connError
  | engine (url : ConnUrl)

/-- The required environment variables of `_create_database_engine`
(`DB_PORT` is optional, defaulting to `"5432"`). -/
def requiredVars : List String := ["DB_USER", "DB_PASSWORD", "DB_HOST", "DB_NAME"]

/-- `lib._create_database_engine()`: read `DB_USER`, `DB_PASSWORD`,
`DB_HOST`, `DB_PORT` (defaulted) and `DB_NAME` in source order, turning
the first `KeyError` into an `EnvironmentError` naming the variable;
only then build the URL and attempt the `SELECT 1` round trip, whose
failure (`connectOk = false`), like a bad port literal, becomes a
`ConnectionError`. `env` is `os.environ`. -/
def _create_database_engine (env : String → Option String) (connectOk : Bool) :
    EngineResult :=
  match env "DB_USER" with
  | Option.none => .envError "DB_USER"
  | some user =>
    match env "DB_PASSWORD" with
    | Option.none => .envError "DB_PASSWORD"
    | some password =>
      match env "DB_HOST" with
      | Option.none => .envError "DB_HOST"
      | some host =>
        let port := (env "DB_PORT").getD "5432"
        match env "DB_NAME" with
        | Option.none => .envError "DB_NAME"
        | some db =>
          match port.toInt? with
          | Option.none => .connError
          | some p =>
            if connectOk then .engine ⟨user, password, host, p, db⟩
            else .connError

/-! ## The editor save handler (`pages/single_editor.py`) -/

/-- The points at which the save handler's `try` block can raise: the
cached-engine lookup, the `DELETE FROM public.test` statement, the
`to_sql` bulk insert, or the commit when the `engine.begin()` block
exits. -/
inductive SaveStep where
  | getEngine
  | deleteAll
  | insertRows
  | commitTx
deriving DecidableEq

/-- The observable outcome of a click on "Save changes": the rows of
`public.test` afterwards, the query cache afterwards, and which of
`st.error` / `st.success` was shown. -/
structure SaveOutcome where
  db : List Row
  cache : List CacheEntry
  errorShown : Bool
  successShown : Bool

/-- The "Save changes" button handler of `pages/single_editor.py`.
Inside one `engine.begin()` transaction it deletes every row of
`public.test` and appends the grid's rows; the transaction's pending
state only becomes visible at the commit, and an exception at any step
(`failAt`) rolls the transaction back, so the table keeps `db`. On
success `lib.load_data.clear()` empties the query cache and the success
message is shown; any exception is caught and shown with `st.error`. -/
def saveChanges (db grid : List Row) (cache : List CacheEntry)
    (failAt : Option SaveStep) : SaveOutcome :=
  if failAt = some .getEngine then ⟨db, cache, true, false⟩
  else if failAt = some .deleteAll then ⟨db, cache, true, false⟩
  else
    let afterDelete : List Row := []
    if failAt = some .insertRows then ⟨db, cache, true, false⟩
    else
      let afterInsert := afterDelete ++ grid
      if failAt = some .commitTx then ⟨db, cache, true, false⟩
      else ⟨afterInsert, load_data_clear cache, false, true⟩

/-! ## The map page (`pages/dataframe_map.py`) -/

/-- One pydeck `GeoJsonLayer` as configured by the page: its
feature/row-data pairs and the literal colour, opacity and line-width
arguments. -/
structure Layer where
  features : List (PyVal × String)
  fillColor : Nat × Nat × Nat
  fillAlpha : Nat
  lineColor : Nat × Nat × Nat
  lineAlpha : Nat
  lineWidthMinPixels : Nat

/-- The base layer over the whole table: fill `[200, 30, 0]`, line
`[0, 0, 0]`, both at `base_alpha`, line width 1. -/
def baseLayerOf (t : DataFrame) (alpha : Nat) : Layer :=
  ⟨(process_geometry t.rows).1, (200, 30, 0), alpha, (0, 0, 0), alpha, 1⟩

/-- The highlight layer over the selected rows: gold fill
`[255, 215, 0]`, red line `[255, 0, 0]`, both fully opaque, line
width 3. -/
def highlightLayerOf (selRows : List Row) : Layer :=
  ⟨(process_geometry selRows).1, (255, 215, 0), 255, (255, 0, 0), 255, 3⟩

/-- The layer list built by the map page: `base_alpha` is 100 when a
selection exists, else 255; `table.iloc[selected_rows]` (`Option.none`
on an out-of-range index, an uncaught `IndexError`) feeds
`process_geometry` again, and the highlight layer is appended only when
that result is nonempty. -/
def buildLayers (t : DataFrame) (sel : List Nat) : Option (List Layer) :=
  if sel.isEmpty then some [baseLayerOf t 255]
  else
    match sel.mapM (fun i => t.rows.get? i) with
    | Option.none => Option.none
    | some selRows =>
      if (process_geometry selRows).1.isEmpty then some [baseLayerOf t 100]
      else some [baseLayerOf t 100, highlightLayerOf selRows]

/-- What the map page ends up showing. -/
inductive PageOutcome where
  | warning
  | noData
  | mapView (layers : List Layer)

/-- The map page after loading `table`: the "No data available or
geometry column missing." warning on an empty table or missing
`geometry` column; otherwise the layers when the processed
GeoDataFrame is nonempty, and the "Could not process geometry data."
message when it is empty. -/
def mapPage (t : DataFrame) (sel : List Nat) : Option PageOutcome :=
  if t.rows.isEmpty || !(t.cols.contains "geometry") then some .warning
  else if (process_geometry t.rows).1.isEmpty then some .noData
  else (buildLayers t sel).map PageOutcome.mapView

/-- The map page's per-session state touched by the refresh handler:
the `load_data` query cache, the memoized `process_geometry` results,
and `st.session_state['selected_rows']`. -/
structure MapSession where
  queryCache : List CacheEntry
  geomCache : List (List Row × (List (PyVal × String) × Bool))
  selectedRows : List Nat

/-- The "Refresh data" button handler: `lib.load_data.clear()`,
`process_geometry.clear()`, reset the selection, then rerun. -/
def refreshHandler (s : MapSession) : MapSession :=
  ⟨load_data_clear s.queryCache, [], []⟩

/-! ## Concrete tables used as witnesses -/

/-- A minimal valid GeoJSON point feature. -/
def pointFeature : PyVal :=
  .dict [("type", .str "Feature"),
         ("geometry", .dict [("type", .str "Point"),
                             ("coordinates", .list [.int 0, .int 0])]),
         ("properties", .dict [])]

/-- A feature collection holding exactly `pointFeature`. -/
def fcKvs : List (String × PyVal) :=
  [("type", .str "FeatureCollection"), ("features", .list [pointFeature])]

/-- A row whose geometry cell holds that one-feature collection. -/
def rowWithGeom : Row := [("id", PyVal.int 1), ("geometry", PyVal.dict fcKvs)]

/-- A row whose geometry cell is null. -/
def rowNullGeom : Row := [("id", PyVal.int 2), ("geometry", PyVal.none)]

/-- A two-row table: one row with a feature, one with a null geometry. -/
def cexTable : DataFrame := ⟨["id", "geometry"], [rowWithGeom, rowNullGeom]⟩

/-! ## Helper lemmas -/

/-- Zipping a list with `length`-many copies of a constant pairs every
element with that constant. -/
theorem zip_replicate_map {α β : Type} (b : β) :
    ∀ l : List α, l.zip (List.replicate l.length b) = l.map (fun a => (a, b))
  | [] => rfl
  | a :: l => by
    simp only [List.length_cons, List.replicate_succ, List.zip_cons_cons,
      List.map_cons, zip_replicate_map b l]

/-- Each loop iteration of `process_geometry` appends exactly as many
row-data copies as features. -/
theorem rowContribution_length (r : Row) (p : List PyVal × List Row)
    (h : rowContribution r = some p) : p.1.length = p.2.length := by
  unfold rowContribution at h
  split at h
  · exact absurd h (by simp)
  · split at h
    · split at h
      · split at h
        · cases h
          simp
        · exact absurd h (by simp)
      · cases h
        rfl
    · cases h
      rfl

/-- The extraction loop keeps `features` and `row_data_list` the same
length: one owning-row mapping per feature. -/
theorem flattenRows_length :
    ∀ (rows : List Row) (p : List PyVal × List Row),
      flattenRows rows = some p → p.1.length = p.2.length
  | [], p, h => by cases h; rfl
  | r :: rest, p, h => by
    unfold flattenRows at h
    split at h
    · exact absurd h (by simp)
    · rename_i fs rds hr
      split at h
      · exact absurd h (by simp)
      · rename_i fs2 rds2 hrest
        cases h
        have h1 := rowContribution_length r (fs, rds) hr
        have h2 := flattenRows_length rest (fs2, rds2) hrest
        simp at h1 h2
        simp [h1, h2]

/-! ## Claim theorems -/

/-- C1: the delete-all of `public.test` and the bulk insert of the
grid's rows run inside one transaction, so a failure at any step —
engine lookup, delete, insert or commit — leaves the table's rows
unchanged (no partial rewrite), shows the error message instead of
crashing, and shows no success message (the cache is also untouched,
so nothing is committed). -/
theorem save_is_atomic_on_failure (db grid : List Row) (cache : List CacheEntry)
    (s : SaveStep) :
    saveChanges db grid cache (some s) = ⟨db, cache, true, false⟩ := by
  cases s <;> rfl

/-- C6: saving a grid whose row multiset equals the table's current
rows leaves the table's row multiset unchanged (row order is not part
of the statement). -/
theorem save_roundtrip_multiset (db grid : List Row) (cache : List CacheEntry)
    (h : Multiset.ofList grid = Multiset.ofList db) :
    Multiset.ofList (saveChanges db grid cache Option.none).db =
      Multiset.ofList db := by
  have hdb : (saveChanges db grid cache Option.none).db = grid := rfl
  rw [hdb]
  exact h

/-- Witness for C6 at a concrete permuted grid: the saved table's
multiset equals the original. -/
theorem save_roundtrip_multiset_witness :
    Multiset.ofList [rowNullGeom, rowWithGeom] =
      Multiset.ofList [rowWithGeom, rowNullGeom] ∧
    Multiset.ofList
        (saveChanges [rowWithGeom, rowNullGeom] [rowNullGeom, rowWithGeom]
          [] Option.none).db =
      Multiset.ofList [rowWithGeom, rowNullGeom] :=
  ⟨Quotient.sound (List.Perm.swap rowWithGeom rowNullGeom []),
   save_roundtrip_multiset [rowWithGeom, rowNullGeom]
     [rowNullGeom, rowWithGeom] []
     (Quotient.sound (List.Perm.swap rowWithGeom rowNullGeom []))⟩

/-- C10: a successful save empties the whole query cache (so the next
`load_data` of any SQL text executes against the database), while a
failed save leaves every cache entry in place. -/
theorem save_cache_effect (db grid : List Row) (cache : List CacheEntry) :
    (saveChanges db grid cache Option.none).cache = [] ∧
    (saveChanges db grid cache Option.none).successShown = true ∧
    (∀ (q : String → DataFrame) (now : Nat) (sql : String),
      (load_data q (saveChanges db grid cache Option.none).cache now sql).executed
        = true) ∧
    (∀ s : SaveStep, (saveChanges db grid cache (some s)).cache = cache) :=
  ⟨rfl, rfl, fun _ _ _ => rfl, fun s => by cases s <;> rfl⟩

/-- C4: whenever one of `DB_USER`, `DB_PASSWORD`, `DB_HOST`, `DB_NAME`
is absent from the environment, `_create_database_engine` returns an
`EnvironmentError` naming a missing required variable, and the result
does not depend on whether the database would be reachable — no
connection URL is built and no network call is attempted. -/
theorem connect_missing_env_fails (env : String → Option String)
    (h : ∃ v ∈ requiredVars, env v = Option.none) :
    ∃ v ∈ requiredVars, env v = Option.none ∧
      ∀ b : Bool, _create_database_engine env b = .envError v := by
  cases hu : env "DB_USER" with
  | none =>
    exact ⟨"DB_USER", by simp [requiredVars], hu,
      fun b => by simp [_create_database_engine, hu]⟩
  | some user =>
    cases hp : env "DB_PASSWORD" with
    | none =>
      exact ⟨"DB_PASSWORD", by simp [requiredVars], hp,
        fun b => by simp [_create_database_engine, hu, hp]⟩
    | some password =>
      cases hh : env "DB_HOST" with
      | none =>
        exact ⟨"DB_HOST", by simp [requiredVars], hh,
          fun b => by simp [_create_database_engine, hu, hp, hh]⟩
      | some host =>
        cases hn : env "DB_NAME" with
        | none =>
          exact ⟨"DB_NAME", by simp [requiredVars], hn,
            fun b => by simp [_create_database_engine, hu, hp, hh, hn]⟩
        | some dbname =>
          obtain ⟨v, hv, hnone⟩ := h
          simp [requiredVars] at hv
          rcases hv with rfl | rfl | rfl | rfl <;> simp_all

/-- Witness for C4: with an empty environment the engine constructor
reports a missing required variable for every value of the
reachability oracle. -/
theorem connect_missing_env_fails_witness :
    ∃ v ∈ requiredVars, (fun _ : String => (Option.none : Option String)) v
        = Option.none ∧
      ∀ b : Bool,
        _create_database_engine (fun _ => Option.none) b = .envError v :=
  connect_missing_env_fails (fun _ => Option.none)
    ⟨"DB_USER", by simp [requiredVars], rfl⟩

/-- A fresh entry at the head of the cache is served while its age is
below the TTL. -/
theorem cacheLookup_fresh_head (rest : List CacheEntry) (sql : String)
    (t now : Nat) (v : DataFrame) (h : now < t + cacheTtl) :
    cacheLookup (⟨sql, t, v⟩ :: rest) now sql = some v := by
  unfold cacheLookup
  rw [List.find?_cons_of_pos]
  · simp [h]
  · simp

/-- C5: a `load_data` call that executed its query memoizes the result,
so re-issuing the same SQL text while the entry's age is below the
600-second TTL returns the cached table without executing again and
leaves the cache unchanged; after `load_data.clear()` the same SQL text
executes against the database again. -/
theorem query_cache_hit_then_clear (runQuery : String → DataFrame)
    (cache : List CacheEntry) (now1 now2 : Nat) (sql : String)
    (hexec : (load_data runQuery cache now1 sql).executed = true)
    (h2 : now2 < now1 + cacheTtl) :
    load_data runQuery (load_data runQuery cache now1 sql).cache now2 sql =
      ⟨(load_data runQuery cache now1 sql).value,
       (load_data runQuery cache now1 sql).cache, false⟩ ∧
    (load_data runQuery
        (load_data_clear (load_data runQuery cache now1 sql).cache)
        now2 sql).executed = true := by
  have hm : cacheLookup cache now1 sql = Option.none := by
    cases hx : cacheLookup cache now1 sql with
    | none => rfl
    | some v =>
      unfold load_data at hexec
      rw [hx] at hexec
      exact absurd hexec (by simp)
  refine ⟨?_, rfl⟩
  simp only [load_data, hm]
  rw [cacheLookup_fresh_head _ _ _ _ _ h2]

/-- Witness for C5 at a concrete run: a miss at time 0, a hit at
time 10, and a re-execution after the clear. -/
theorem query_cache_hit_then_clear_witness :
    (load_data (fun _ => ⟨[], []⟩) [] 0 "select * from public.test").executed
        = true ∧
    (10 : Nat) < 0 + cacheTtl ∧
    (load_data (fun _ => ⟨[], []⟩)
        (load_data (fun _ => ⟨[], []⟩) [] 0 "select * from public.test").cache
        10 "select * from public.test" =
      ⟨(load_data (fun _ => ⟨[], []⟩) [] 0 "select * from public.test").value,
       (load_data (fun _ => ⟨[], []⟩) [] 0 "select * from public.test").cache,
       false⟩ ∧
     (load_data (fun _ => ⟨[], []⟩)
        (load_data_clear
          (load_data (fun _ => ⟨[], []⟩) [] 0
            "select * from public.test").cache)
        10 "select * from public.test").executed = true) :=
  ⟨rfl, by decide,
   query_cache_hit_then_clear (fun _ => ⟨[], []⟩) [] 0 10
     "select * from public.test" rfl (by decide)⟩

/-- C7: the map page's refresh handler empties the query cache and the
processed-geometry cache and resets the selection set, so the rerun's
`load_data` executes against the database and no stale selection
survives. -/
theorem refresh_resets_selection (s : MapSession) (_h : s.selectedRows ≠ []) :
    (refreshHandler s).selectedRows = [] ∧
    (refreshHandler s).queryCache = [] ∧
    (refreshHandler s).geomCache = [] ∧
    ∀ (q : String → DataFrame) (now : Nat) (sql : String),
      (load_data q (refreshHandler s).queryCache now sql).executed = true :=
  ⟨rfl, rfl, rfl, fun _ _ _ => rfl⟩

/-- Witness for C7 on a session holding a nonempty selection. -/
theorem refresh_resets_selection_witness :
    (MapSession.mk [] [] [0]).selectedRows ≠ [] ∧
    ((refreshHandler ⟨[], [], [0]⟩).selectedRows = [] ∧
     (refreshHandler ⟨[], [], [0]⟩).queryCache = [] ∧
     (refreshHandler ⟨[], [], [0]⟩).geomCache = [] ∧
     ∀ (q : String → DataFrame) (now : Nat) (sql : String),
       (load_data q (refreshHandler ⟨[], [], [0]⟩).queryCache now sql).executed
         = true) :=
  ⟨by simp, refresh_resets_selection ⟨[], [], [0]⟩ (by simp)⟩

/-- A nonempty list is not `isEmpty`. -/
theorem isEmpty_false_of_ne_nil {α : Type} (l : List α) (h : l ≠ []) :
    l.isEmpty = false := by
  cases l with
  | nil => exact absurd rfl h
  | cons a t => rfl

/-- Rows whose geometry cell is null contribute nothing and raise
nothing. -/
theorem flattenRows_all_null :
    ∀ rows : List Row,
      (∀ r ∈ rows, getCol r "geometry" = some PyVal.none) →
      flattenRows rows = some ([], [])
  | [], _ => rfl
  | r :: rest, h => by
    have hr : getCol r "geometry" = some PyVal.none := h r (by simp)
    have hrest := flattenRows_all_null rest (fun x hx => h x (by simp [hx]))
    unfold flattenRows rowContribution
    rw [hr, hrest]
    rfl

/-- C2 (and the one-mapping-per-feature invariant): a row whose
geometry cell holds a feature collection with feature list `fs`
contributes exactly `fs` to the flattened features, paired with
`fs.length` copies of the row's non-geometry columns; a single such
row yields exactly the pairs of each feature with the serialized row
data; and the extraction loop always emits equally many features and
owning-row mappings. -/
theorem flatten_one_mapping_per_feature (r : Row)
    (kvs : List (String × PyVal)) (fs : List PyVal)
    (hg : getCol r "geometry" = some (PyVal.dict kvs))
    (hf : dictGet kvs "features" (PyVal.list []) = PyVal.list fs) :
    rowContribution r = some (fs, List.replicate fs.length (dropGeometry r)) ∧
    (process_geometry [r]).1 =
      fs.map (fun f => (f, json_dumps (PyVal.dict (dropGeometry r)))) ∧
    ∀ (rows : List Row) (p : List PyVal × List Row),
      flattenRows rows = some p → p.1.length = p.2.length := by
  have hrc : rowContribution r
      = some (fs, List.replicate fs.length (dropGeometry r)) := by
    unfold rowContribution
    rw [hg]
    cases kvs with
    | nil =>
      simp only [dictGet, List.find?] at hf
      cases hf
      rfl
    | cons kv rest =>
      simp only [truthy, List.isEmpty_cons, Bool.not_false, if_true, hf]
  have hfl : flattenRows [r]
      = some (fs, List.replicate fs.length (dropGeometry r)) := by
    unfold flattenRows
    rw [hrc]
    simp [flattenRows]
  refine ⟨hrc, ?_, flattenRows_length⟩
  have hpg : process_geometry [r]
      = (if fs.isEmpty then ([], true)
         else (fs.zip ((List.replicate fs.length (dropGeometry r)).map
            (fun rd => json_dumps (.dict rd))), false)) := by
    unfold process_geometry
    rw [hfl]
  rw [hpg]
  cases fs with
  | nil => rfl
  | cons f fs2 =>
    simp only [List.isEmpty_cons, Bool.false_eq_true, if_false,
      List.map_replicate]
    exact zip_replicate_map _ (f :: fs2)

/-- Witness for C2: the one-feature row contributes its single
feature with one copy of its serialized id column. -/
theorem flatten_one_mapping_per_feature_witness :
    getCol rowWithGeom "geometry" = some (PyVal.dict fcKvs) ∧
    dictGet fcKvs "features" (PyVal.list []) = PyVal.list [pointFeature] ∧
    (rowContribution rowWithGeom
        = some ([pointFeature],
            List.replicate (List.length [pointFeature])
              (dropGeometry rowWithGeom)) ∧
     (process_geometry [rowWithGeom]).1 =
       [pointFeature].map
         (fun f => (f, json_dumps (PyVal.dict (dropGeometry rowWithGeom)))) ∧
     ∀ (rows : List Row) (p : List PyVal × List Row),
       flattenRows rows = some p → p.1.length = p.2.length) :=
  ⟨rfl, rfl,
   flatten_one_mapping_per_feature rowWithGeom fcKvs [pointFeature] rfl rfl⟩

/-- C8: when every row's geometry cell is null, the flattening loop
produces zero features and raises nothing; `from_features` then raises
on the empty feature list, the `except` branch catches it (showing the
inline message, error flag `true`, empty GeoDataFrame), and the page
shows its no-data message — no exception escapes the page. -/
theorem all_null_geometry_reports_no_data (t : DataFrame) (sel : List Nat)
    (hne : t.rows.isEmpty = false)
    (hcol : t.cols.contains "geometry" = true)
    (hnull : ∀ r ∈ t.rows, getCol r "geometry" = some PyVal.none) :
    flattenRows t.rows = some ([], []) ∧
    process_geometry t.rows = ([], true) ∧
    mapPage t sel = some PageOutcome.noData := by
  have hfl0 : flattenRows t.rows = some ([], []) :=
    flattenRows_all_null t.rows hnull
  have hpg : process_geometry t.rows = ([], true) := by
    unfold process_geometry
    rw [hfl0]
    rfl
  have hmem : "geometry" ∈ t.cols := by simpa using hcol
  refine ⟨hfl0, hpg, ?_⟩
  simp [mapPage, hne, hmem, hpg]

/-- Witness for C8 on a one-row table whose geometry cell is null. -/
theorem all_null_geometry_reports_no_data_witness :
    (DataFrame.mk ["id", "geometry"] [rowNullGeom]).rows.isEmpty = false ∧
    (DataFrame.mk ["id", "geometry"] [rowNullGeom]).cols.contains "geometry"
        = true ∧
    (∀ r ∈ (DataFrame.mk ["id", "geometry"] [rowNullGeom]).rows,
      getCol r "geometry" = some PyVal.none) ∧
    (flattenRows (DataFrame.mk ["id", "geometry"] [rowNullGeom]).rows
        = some ([], []) ∧
     process_geometry (DataFrame.mk ["id", "geometry"] [rowNullGeom]).rows
        = ([], true) ∧
     mapPage ⟨["id", "geometry"], [rowNullGeom]⟩ [] = some PageOutcome.noData) :=
  ⟨rfl, rfl,
   by
     intro r hr
     rw [List.mem_singleton] at hr
     subst hr
     rfl,
   all_null_geometry_reports_no_data ⟨["id", "geometry"], [rowNullGeom]⟩ []
     rfl rfl
     (by
       intro r hr
       rw [List.mem_singleton] at hr
       subst hr
       rfl)⟩

/-- Counterexample to C9 as stated: a table holding only a row whose
geometry cell is a truthy non-dict (a JSON string) flattens to zero
features, so `from_features` raises on the empty list and the caught
error shows the inline "Error processing geometry" message (error flag
`true`) — contradicting "without any inline error message". -/
theorem lone_skipped_row_shows_inline_error :
    getCol [("id", PyVal.int 7), ("geometry", PyVal.str "FeatureCollection")]
        "geometry" = some (PyVal.str "FeatureCollection") ∧
    truthy (PyVal.str "FeatureCollection") = true ∧
    PyVal.isDict (PyVal.str "FeatureCollection") = false ∧
    process_geometry
        [[("id", PyVal.int 7), ("geometry", PyVal.str "FeatureCollection")]]
      = ([], true) :=
  ⟨rfl, rfl, rfl, rfl⟩

/-- C9 (amended): a row whose geometry cell is truthy but not a dict
(for example a JSON-encoded string) is skipped silently by the
extraction loop: it contributes zero features and zero owning-row
mappings, its iteration raises nothing and shows nothing, and its
presence changes nothing — `process_geometry` returns the same
result, inline-error flag included, with or without the row.  (Only
when the whole table flattens to zero features does the empty feature
list make `from_features` raise, and that caught error is reported
inline.) -/
theorem truthy_nondict_geometry_skipped (r : Row) (g : PyVal)
    (hg : getCol r "geometry" = some g)
    (ht : truthy g = true)
    (hd : g.isDict = false) :
    rowContribution r = some ([], []) ∧
    (∀ rest, flattenRows (r :: rest) = flattenRows rest) ∧
    (∀ rest, process_geometry (r :: rest) = process_geometry rest) := by
  have hrc : rowContribution r = some ([], []) := by
    unfold rowContribution
    rw [hg]
    cases g <;> simp_all [PyVal.isDict, truthy]
  have hfl : ∀ rest, flattenRows (r :: rest) = flattenRows rest := by
    intro rest
    show (match rowContribution r with
          | Option.none => Option.none
          | some (fs, rds) =>
            match flattenRows rest with
            | Option.none => Option.none
            | some (fs2, rds2) => some (fs ++ fs2, rds ++ rds2))
        = flattenRows rest
    rw [hrc]
    cases hrest : flattenRows rest with
    | none => rfl
    | some p =>
      cases p with
      | mk a b => simp
  refine ⟨hrc, hfl, ?_⟩
  intro rest
  unfold process_geometry
  rw [hfl rest]

/-- Witness for the amended C9: a row whose geometry cell holds a JSON
string is skipped without features, mappings, raise or message of its
own. -/
theorem truthy_nondict_geometry_skipped_witness :
    getCol [("id", PyVal.int 7), ("geometry", PyVal.str "FeatureCollection")]
        "geometry" = some (PyVal.str "FeatureCollection") ∧
    truthy (PyVal.str "FeatureCollection") = true ∧
    PyVal.isDict (PyVal.str "FeatureCollection") = false ∧
    (rowContribution
        [("id", PyVal.int 7), ("geometry", PyVal.str "FeatureCollection")]
        = some ([], []) ∧
     (∀ rest,
        flattenRows
            ([("id", PyVal.int 7),
              ("geometry", PyVal.str "FeatureCollection")] :: rest)
          = flattenRows rest) ∧
     (∀ rest,
        process_geometry
            ([("id", PyVal.int 7),
              ("geometry", PyVal.str "FeatureCollection")] :: rest)
          = process_geometry rest)) :=
  ⟨rfl, rfl, rfl,
   truthy_nondict_geometry_skipped
     [("id", PyVal.int 7), ("geometry", PyVal.str "FeatureCollection")]
     (PyVal.str "FeatureCollection") rfl rfl rfl⟩

/-- Counterexample to C3 as stated: on `cexTable` the processed
feature set is nonempty and the selection `[1]` is nonempty, yet the
page builds only the faded base layer and no highlight layer, because
the selected row's geometry is null and flattens to zero features. -/
theorem nonempty_selection_without_highlight_layer :
    (process_geometry cexTable.rows).1.length = 1 ∧
    ([1] : List Nat) ≠ [] ∧
    buildLayers cexTable [1] = some [baseLayerOf cexTable 100] ∧
    ¬ ∃ base hl, buildLayers cexTable [1] = some [base, hl] := by
  refine ⟨rfl, by simp, rfl, ?_⟩
  rintro ⟨base, hl, h⟩
  rw [show buildLayers cexTable [1] = some [baseLayerOf cexTable 100] from rfl]
    at h
  simp at h

/-- C3 (amended): with an in-range selection, an empty selection
yields exactly the base layer at alpha 255; a nonempty selection
yields the base layer at alpha 100, together with exactly one
highlight layer holding the selected rows' flattened features when
that set is nonempty, and no highlight layer when the selected rows
flatten to zero features. -/
theorem layer_construction (t : DataFrame) (sel : List Nat)
    (selRows : List Row)
    (hsel : sel.mapM (fun i => t.rows.get? i) = some selRows) :
    (sel = [] → buildLayers t sel = some [baseLayerOf t 255]) ∧
    (sel ≠ [] → (process_geometry selRows).1 = [] →
      buildLayers t sel = some [baseLayerOf t 100]) ∧
    (sel ≠ [] → (process_geometry selRows).1 ≠ [] →
      buildLayers t sel = some [baseLayerOf t 100, highlightLayerOf selRows]) := by
  refine ⟨?_, ?_, ?_⟩
  · intro h
    subst h
    rfl
  · intro hne hemp
    have hB := isEmpty_false_of_ne_nil sel hne
    have hE : (process_geometry selRows).1.isEmpty = true := by
      rw [hemp]
      rfl
    unfold buildLayers
    rw [hB, hsel]
    simp [hE]
  · intro hne hnemp
    have hB := isEmpty_false_of_ne_nil sel hne
    have hE := isEmpty_false_of_ne_nil _ hnemp
    unfold buildLayers
    rw [hB, hsel]
    simp [hE]

/-- Witness for the amended C3: selecting the feature-bearing row of
`cexTable` produces the faded base layer plus the highlight layer of
that row. -/
theorem layer_construction_witness :
    ([0] : List Nat).mapM (fun i => cexTable.rows.get? i)
        = some [rowWithGeom] ∧
    ([0] : List Nat) ≠ [] ∧
    (process_geometry [rowWithGeom]).1 ≠ [] ∧
    buildLayers cexTable [0]
        = some [baseLayerOf cexTable 100, highlightLayerOf [rowWithGeom]] :=
  ⟨rfl, by simp, List.cons_ne_nil _ _,
   (layer_construction cexTable [0] [rowWithGeom] rfl).2.2 (by simp)
     (List.cons_ne_nil _ _)⟩

end HmlrPortal
